import Mathlib

/-!
Verification development for the TAPR download-orchestration scraper
(`src/Scraping_App/TEA_Scraper.GUI.py`).

The Python source is shallowly embedded: the filesystem is a directory
listing (`List String`), the browser page and the secondary fetch are an
environment record of booleans, wall-clock polling is a fuel-indexed loop
whose second component counts the 5-second sleeps executed, and the
orchestrator's observable actions are an explicit event trace.
-/

namespace TeaScraper

/-- Python exceptions that can cross the `tea_scraper` boundary in the model. -/
inductive PyExc where
  | nameError
  | valueError
  deriving DecidableEq

/-- Names bound at module scope of `TEA_Scraper.GUI.py` by its import
statements and top-level definitions (source lines 10-19 and the helper
definitions).  Used to model Python name resolution inside the
`except WebDriverException` clause. -/
def moduleBindings : List String :=
  ["time", "webdriver", "By", "NoSuchElementException", "os", "requests",
   "BeautifulSoup", "re", "pd", "st", "district_type_scraper",
   "wait_for_downloads", "file_renamer", "convert_dat_to_csv", "tea_scraper",
   "LEVEL_MAPPING"]

/-- The class name written in the `except ... as e:` clause at source line 277. -/
def handlerClassName : String := "WebDriverException"

/-- Expected on-disk file name built by `wait_for_downloads` (source lines
90-94): `DIST{var}.dat` (`DREF.dat` for REF) below 2021, `.csv` from 2021 on.
The tokens `DIST` and `DREF` are literal in the source. -/
def expectedFileName (year : Nat) (v : String) : String :=
  if year < 2021 then
    if v == "REF" then "DREF.dat" else "DIST" ++ v ++ ".dat"
  else
    if v == "REF" then "DREF.csv" else "DIST" ++ v ++ ".csv"

/-- The `expected_files` list of `wait_for_downloads`. -/
def expectedFiles (vars : List String) (year : Nat) : List String :=
  vars.map (expectedFileName year)

/-- Python's `str.endswith`, over the character lists of the strings. -/
def strEndsWith (s suffix : String) : Bool :=
  s.data.reverse.take suffix.data.length == suffix.data.reverse

/-- The poll condition at source line 101: every expected name is in the
directory listing and does not end in `.crdownload`. -/
def downloadsComplete (exp listing : List String) : Bool :=
  exp.all (fun f => listing.contains f && ! (strEndsWith f ".crdownload"))

/-- The polling loop of `wait_for_downloads` (source lines 97-112) over a
directory whose listing is stable for the duration of the wait.  `elapsed`
is the wall-clock seconds consumed by the sleeps so far; the loop runs while
`elapsed < timeout` and sleeps 5 seconds after each failed check.  The fuel
argument only forces termination and is always supplied large enough
(`timeout + 1` iterations can never be reached because each iteration adds 5
to `elapsed`).  Returns the boolean result paired with the number of sleeps
executed. -/
def waitFuel (exp listing : List String) (timeout : Nat) : Nat → Nat → Bool × Nat
  | 0, _ => (false, 0)
  | fuel + 1, elapsed =>
    if elapsed < timeout then
      if downloadsComplete exp listing then (true, 0)
      else
        let r := waitFuel exp listing timeout fuel (elapsed + 5)
        (r.fst, r.snd + 1)
    else (false, 0)

/-- `wait_for_downloads(variables, year, directory, timeout)`: result and
number of poll-interval sleeps.  The orchestrator calls it with the default
`timeout = 200`. -/
def wait_for_downloads (vars : List String) (year : Nat)
    (listing : List String) (timeout : Nat) : Bool × Nat :=
  waitFuel (expectedFiles vars year) listing timeout (timeout + 1) 0

/-- One pass of the inner pattern loop of `file_renamer` (source lines
145-155): try the candidate names in order over the current directory
contents; the first one that exists is renamed to `newName` (the old entry is
removed, the new one added) and the inner loop stops.  Returns the updated
listing and the renames performed. -/
def renameStep (files : List String) (cands : List String) (newName : String) :
    List String × List (String × String) :=
  match cands with
  | [] => (files, [])
  | p :: rest =>
    if p ∈ files then (newName :: files.erase p, [(p, newName)])
    else renameStep files rest newName

/-- `file_renamer(directory, year, prefix, var, level)` (source lines
115-155).  The outer loop runs over the extensions `.csv` then `.dat`; for
each extension the candidate pre-rename names are the prefix-based then the
level-based pattern, and the `break` in the source leaves only the inner
pattern loop.  The canonical target name uses the level token for `REF` and
the prefix token otherwise, with `_{year}` before the extension.  The
directory is a listing of file names; renames are threaded through it. -/
def file_renamer (files : List String) (year : Nat)
    (pfx v level : String) : List String × List (String × String) :=
  let target := fun (ext : String) =>
    (if v == "REF" then level ++ v else pfx ++ v) ++ "_" ++ toString year ++ ext
  let csvPass := renameStep files [pfx ++ v ++ ".csv", level ++ v ++ ".csv"] (target ".csv")
  let datPass := renameStep csvPass.fst [pfx ++ v ++ ".dat", level ++ v ++ ".dat"] (target ".dat")
  (datPass.fst, csvPass.snd ++ datPass.snd)

/-- The four candidate names of the file-presence check in `tea_scraper`
(source lines 289-294), in source order. -/
def filePatterns (pfx level v : String) (year : Nat) : List String :=
  [pfx ++ v ++ "_" ++ toString year ++ ".csv",
   pfx ++ v ++ "_" ++ toString year ++ ".dat",
   level ++ v ++ "_" ++ toString year ++ ".dat",
   level ++ v ++ "_" ++ toString year ++ ".csv"]

/-- The file-presence oracle: `any(os.path.isfile(...) for file in
file_patterns)` at source line 297 over a directory listing. -/
def alreadyPresent (listing : List String) (pfx level v : String) (year : Nat) : Bool :=
  (filePatterns pfx level v year).any (fun p => listing.contains p)

/-- Observable actions of one `tea_scraper` run: browser interactions with
the external page, browser shutdown, rename and conversion calls, and the
secondary-dataset actions. -/
inductive Event where
  | navigate
  | levelRadioClick
  | varRadioClick (v : String)
  | continueClick
  | renameCall (v : String)
  | driverQuit
  | secondaryFetch
  | writeSecondaryCsv
  | convertCall
  deriving DecidableEq

/-- Per-variable outcome of the inner loop of `tea_scraper`. -/
inductive VarOutcome where
  | alreadyPresent
  | downloaded
  | unavailableOnSite
  deriving DecidableEq

/-- How one year's processing ends: the variable loop completed (with its
outcomes), the year was skipped at page load, the year was skipped by the
`except` handler, or a Python exception escaped. -/
inductive YearStatus where
  | completed (outs : List (String × VarOutcome))
  | skippedPage
  | skippedYear
  | raised (e : PyExc)
  deriving DecidableEq

/-- External world for one year: whether browser start-up or navigation
raises, whether the page source reports not-found, which radio controls
exist, the contents of the year's working directory, and whether the
secondary district-type fetch returns data. -/
structure YearEnv where
  browserFails : Bool
  pageNotFound : Bool
  levelControlPresent : Bool
  varControlPresent : String → Bool
  listing : List String
  secondaryFetchOk : Bool

/-- The per-variable loop of `tea_scraper` (source lines 286-316): an
already-present variable is skipped (and, like an unavailable one, added to
the `unavailable` list, source lines 299 and 315); otherwise the variable's
radio and the Continue button are clicked, or the variable is marked
unavailable when its control is missing.  Returns the page events, the
per-variable outcomes, and the `unavailable` list. -/
def varLoop (env : YearEnv) (pfx level : String) (year : Nat) :
    List String → List Event × List (String × VarOutcome) × List String
  | [] => ([], [], [])
  | v :: rest =>
    let r := varLoop env pfx level year rest
    if alreadyPresent env.listing pfx level v year then
      (r.1, (v, VarOutcome.alreadyPresent) :: r.2.1, v :: r.2.2)
    else if env.varControlPresent v then
      (Event.varRadioClick v :: Event.continueClick :: r.1,
       (v, VarOutcome.downloaded) :: r.2.1, r.2.2)
    else
      (r.1, (v, VarOutcome.unavailableOnSite) :: r.2.1, v :: r.2.2)

/-- One year of the `for year in years` loop of `tea_scraper` (source lines
235-347).  An exception inside the `try` block (source lines 263-276) is
matched against the `except` clause by resolving `handlerClassName` at
module scope: when the name is unbound, Python raises `NameError` in its
place and the handler body (message, `driver.quit()`, `continue`) never
runs.  After the variable loop, the watcher is called on the set difference
`variables - unavailable`, a successful wait triggers one `file_renamer`
call per waited variable, the driver is quit, the District-level secondary
branch may `continue` past the final conversion step, and otherwise
`convert_dat_to_csv` is called on the year's directory. -/
def processYear (env : YearEnv) (level pfx : String) (vars : List String)
    (year : Nat) (dist_type : Bool) : List Event × YearStatus :=
  if env.browserFails then
    if handlerClassName ∈ moduleBindings then ([Event.driverQuit], YearStatus.skippedYear)
    else ([], YearStatus.raised PyExc.nameError)
  else if env.pageNotFound then
    ([Event.navigate, Event.driverQuit], YearStatus.skippedPage)
  else if ! env.levelControlPresent then
    if handlerClassName ∈ moduleBindings then
      ([Event.navigate, Event.driverQuit], YearStatus.skippedYear)
    else ([Event.navigate], YearStatus.raised PyExc.nameError)
  else
    let lp := varLoop env pfx level year vars
    let avail := vars.filter (fun v => ! lp.2.2.contains v)
    let renames := if (wait_for_downloads avail year env.listing 200).fst
      then avail.map Event.renameCall else []
    let ev := Event.navigate :: Event.levelRadioClick :: lp.1 ++ renames ++ [Event.driverQuit]
    if level == "D" && dist_type then
      if ("district_type" ++ toString year ++ ".csv") ∈ env.listing then
        (ev, YearStatus.completed lp.2.1)
      else if ! env.secondaryFetchOk then
        (ev ++ [Event.secondaryFetch], YearStatus.completed lp.2.1)
      else
        (ev ++ [Event.secondaryFetch, Event.writeSecondaryCsv, Event.convertCall],
         YearStatus.completed lp.2.1)
    else
      (ev ++ [Event.convertCall], YearStatus.completed lp.2.1)

/-- The year loop of `tea_scraper`: years are processed in order and an
escaping exception aborts the remaining years. -/
def processYears (envOf : Nat → YearEnv) (level pfx : String)
    (vars : List String) (dist_type : Bool) :
    List Nat → List (Nat × List Event × YearStatus) × Option PyExc
  | [] => ([], none)
  | y :: rest =>
    let r := processYear (envOf y) level pfx vars y dist_type
    match r.snd with
    | YearStatus.raised e => ([(y, r.fst, YearStatus.raised e)], some e)
    | s =>
      let tail := processYears envOf level pfx vars dist_type rest
      ((y, r.fst, s) :: tail.fst, tail.snd)

/-- The level codes accepted by `tea_scraper` (source lines 217-222). -/
def validLevels : List String := ["C", "D", "R", "S"]

/-- The `file_prefix` table of `tea_scraper` (source lines 227-232). -/
def filePfx (level : String) : String :=
  if level == "C" then "CAMP"
  else if level == "D" then "DIST"
  else if level == "R" then "REGN"
  else "STATE"

/-- Result of a whole `tea_scraper` run: early `return` on a bad directory,
`ValueError` on a bad level, an escaped exception with the years processed
up to it, or normal completion with every year's trace and status. -/
inductive ScraperResult where
  | invalidDir
  | invalidLevel
  | raised (e : PyExc) (prior : List (Nat × List Event × YearStatus))
  | done (results : List (Nat × List Event × YearStatus))
  deriving DecidableEq

/-- `tea_scraper(directory_path, years, variables, level, dist_type)`
(source lines 192-349): the directory check at line 210 returns `None`
before anything else happens, the level check at line 224 raises
`ValueError` before any year is processed, and then the years are processed
in order. -/
def tea_scraper (dirExists : Bool) (years : List Nat) (vars : List String)
    (level : String) (dist_type : Bool) (envOf : Nat → YearEnv) : ScraperResult :=
  if ! dirExists then ScraperResult.invalidDir
  else if ! validLevels.contains level then ScraperResult.invalidLevel
  else
    match processYears envOf level (filePfx level) vars dist_type years with
    | (rs, some e) => ScraperResult.raised e rs
    | (rs, none) => ScraperResult.done rs

/-- All events of a run, in order. -/
def ScraperResult.trace : ScraperResult → List Event
  | ScraperResult.raised _ rs => (rs.map (fun r => r.2.1)).flatten
  | ScraperResult.done rs => (rs.map (fun r => r.2.1)).flatten
  | _ => []

/-- A year whose page loads but whose level radio control is missing:
`find_element` at source line 274 raises `NoSuchElementException` inside the
`try` block. -/
def envLevelControlMissing : YearEnv :=
  { browserFails := false, pageNotFound := false, levelControlPresent := false,
    varControlPresent := fun _ => true, listing := [], secondaryFetchOk := true }

/-- A year whose directory already holds the secondary district-type file
and the freshly pushed `DISTGRAD.dat`; the page and all controls work. -/
def envSecondaryFilePresent : YearEnv :=
  { browserFails := false, pageNotFound := false, levelControlPresent := true,
    varControlPresent := fun _ => true,
    listing := ["district_type2019.csv", "DISTGRAD.dat"], secondaryFetchOk := true }

/-- A year whose directory already holds the canonical `DISTGRAD_2021.csv`;
the page and all controls work. -/
def envAllPresent : YearEnv :=
  { browserFails := false, pageNotFound := false, levelControlPresent := true,
    varControlPresent := fun _ => true, listing := ["DISTGRAD_2021.csv"],
    secondaryFetchOk := true }

/-- A year whose directory holds only the pre-rename site name
`DISTGRAD.csv`, as left behind when a watcher timeout skipped renaming. -/
def envPreRenameLeftover : YearEnv :=
  { browserFails := false, pageNotFound := false, levelControlPresent := true,
    varControlPresent := fun _ => true, listing := ["DISTGRAD.csv"],
    secondaryFetchOk := true }

/-! Helper lemmas. -/

theorem data_append (a b : String) : (a ++ b).data = a.data ++ b.data := rfl

theorem ne_of_underscore (a ys e b : String) (ha : '_' ∈ a.data)
    (hb : '_' ∉ b.data) : a ++ ys ++ e ≠ b := by
  intro h
  apply hb
  rw [← h, data_append, data_append]
  simp [ha]

theorem waitFuel_false_of_incomplete (exp listing : List String) (timeout : Nat)
    (h : downloadsComplete exp listing = false) :
    ∀ fuel elapsed, (waitFuel exp listing timeout fuel elapsed).fst = false := by
  intro fuel
  induction fuel with
  | zero => intro e; simp [waitFuel]
  | succ n ih =>
    intro e
    simp only [waitFuel, h]
    split
    · simpa using ih (e + 5)
    · rfl

theorem waitFuel_first_poll (exp listing : List String) (timeout : Nat)
    (h : 0 < timeout) (hc : downloadsComplete exp listing = true) :
    waitFuel exp listing timeout (timeout + 1) 0 = (true, 0) := by
  show (if 0 < timeout then
      if downloadsComplete exp listing then (true, 0)
      else
        let r := waitFuel exp listing timeout timeout 5
        (r.fst, r.snd + 1)
    else (false, 0)) = (true, 0)
  rw [if_pos h, hc]
  rfl

theorem downloadsComplete_iff (exp listing : List String) :
    downloadsComplete exp listing = true ↔
      ∀ f ∈ exp, f ∈ listing ∧ strEndsWith f ".crdownload" = false := by
  simp [downloadsComplete]

/-! Claim theorems. -/

/-- C1: the Download-Completion Watcher does use the era-appropriate
extension, but its expected names are the literal tokens `DIST` and `DREF`
from source lines 92 and 94, not the prefix derived from the requested
level: for a Campus-level run (prefix `CAMP`) the watcher still waits for
`DISTGRAD.dat` and `DREF.dat`, and the names `CAMPGRAD.dat` and `CREF.dat`
required by the claim are never in the watch set. -/
theorem watcher_names_hardcode_district :
    expectedFiles ["GRAD", "REF"] 2020 = ["DISTGRAD.dat", "DREF.dat"] ∧
    expectedFiles ["GRAD", "REF"] 2021 = ["DISTGRAD.csv", "DREF.csv"] ∧
    filePfx "C" = "CAMP" ∧
    ("CAMPGRAD.dat" ∈ expectedFiles ["GRAD", "REF"] 2020 → False) ∧
    ("CREF.dat" ∈ expectedFiles ["GRAD", "REF"] 2020 → False) := by
  decide

/-- C2: on a directory holding both `DISTGRAD.csv` and `DISTGRAD.dat`, one
`file_renamer` call renames BOTH files: the `break` at source line 155
leaves only the inner pattern loop, so the outer extension loop performs a
second rename, contradicting the claim (and the function's own docstring)
that at most the first matching file is renamed. -/
theorem file_renamer_renames_twice :
    file_renamer ["DISTGRAD.csv", "DISTGRAD.dat"] 2020 "DIST" "GRAD" "D" =
      (["DISTGRAD_2020.dat", "DISTGRAD_2020.csv"],
       [("DISTGRAD.csv", "DISTGRAD_2020.csv"), ("DISTGRAD.dat", "DISTGRAD_2020.dat")]) ∧
    (file_renamer ["DISTGRAD.csv", "DISTGRAD.dat"] 2020 "DIST" "GRAD" "D").snd.length = 2 := by
  decide

/-- C5: for any positive timeout, the watcher returns true exactly when
every expected file name is in the directory listing and none of the
expected names ends with the in-progress marker `.crdownload`; and whenever
that condition holds it returns true on the first poll, with zero
poll-interval sleeps. -/
theorem wait_for_downloads_success_spec (vars : List String) (year : Nat)
    (listing : List String) (timeout : Nat) (h : 0 < timeout) :
    ((wait_for_downloads vars year listing timeout).fst = true ↔
      ∀ f ∈ expectedFiles vars year, f ∈ listing ∧ strEndsWith f ".crdownload" = false) ∧
    ((∀ f ∈ expectedFiles vars year, f ∈ listing ∧ strEndsWith f ".crdownload" = false) →
      wait_for_downloads vars year listing timeout = (true, 0)) := by
  constructor
  · rw [← downloadsComplete_iff]
    constructor
    · intro ht
      cases hb : downloadsComplete (expectedFiles vars year) listing with
      | true => rfl
      | false =>
        rw [wait_for_downloads,
          waitFuel_false_of_incomplete _ _ timeout hb (timeout + 1) 0] at ht
        cases ht
    · intro hb
      rw [wait_for_downloads, waitFuel_first_poll _ _ _ h hb]
  · intro hall
    rw [wait_for_downloads,
      waitFuel_first_poll _ _ _ h ((downloadsComplete_iff _ _).mpr hall)]

/-- C5 witness: at year 2021 with expected set {GRAD} and a directory that
already holds `DISTGRAD.csv`, the equivalence and the one-poll bound hold. -/
theorem wait_for_downloads_success_spec_witness :
    ((wait_for_downloads ["GRAD"] 2021 ["DISTGRAD.csv"] 200).fst = true ↔
      ∀ f ∈ expectedFiles ["GRAD"] 2021, f ∈ ["DISTGRAD.csv"] ∧ strEndsWith f ".crdownload" = false) ∧
    ((∀ f ∈ expectedFiles ["GRAD"] 2021, f ∈ ["DISTGRAD.csv"] ∧ strEndsWith f ".crdownload" = false) →
      wait_for_downloads ["GRAD"] 2021 ["DISTGRAD.csv"] 200 = (true, 0)) :=
  wait_for_downloads_success_spec ["GRAD"] 2021 ["DISTGRAD.csv"] 200 (by decide)

/-- C8: with an empty expected-variables set the watcher returns true on
the first poll with zero poll-interval sleeps, for every directory and
year, at the default timeout of 200: the completeness check over the empty
expected set is vacuously true before the first sleep. -/
theorem wait_for_downloads_empty_immediate (year : Nat) (listing : List String) :
    wait_for_downloads [] year listing 200 = (true, 0) := rfl

theorem oracle_pre_rename_miss (year : Nat) :
    alreadyPresent ["DISTGRAD.csv"] "DIST" "D" "GRAD" year = false := by
  simp only [alreadyPresent, filePatterns, List.any_cons, List.any_nil, Bool.or_false,
    Bool.or_eq_false_iff]
  refine ⟨?_, ?_, ?_, ?_⟩ <;>
    · simp only [List.contains_cons, List.contains_nil, Bool.or_false, beq_eq_false_iff_ne,
        ne_eq]
      intro h
      refine ne_of_underscore _ (toString year) _ "DISTGRAD.csv" ?_ ?_ h <;> decide

/-- C9: every candidate name of the File-Presence Oracle carries the
`_{year}` suffix before its extension; consequently a directory holding
only the pre-rename site name `DISTGRAD.csv` is never detected as already
present (for any year), and on such a directory the orchestrator
re-attempts the download by clicking the variable's radio control. -/
theorem oracle_matches_only_year_suffixed :
    (∀ (pfx level v : String) (year : Nat) (p : String), p ∈ filePatterns pfx level v year →
      ∃ stem, p = stem ++ "_" ++ toString year ++ ".csv" ∨
        p = stem ++ "_" ++ toString year ++ ".dat") ∧
    (∀ year : Nat, alreadyPresent ["DISTGRAD.csv"] "DIST" "D" "GRAD" year = false) ∧
    Event.varRadioClick "GRAD" ∈
      (processYear envPreRenameLeftover "D" "DIST" ["GRAD"] 2019 false).fst := by
  refine ⟨?_, oracle_pre_rename_miss, by decide⟩
  intro pfx level v year p hp
  simp only [filePatterns, List.mem_cons, List.not_mem_nil, or_false] at hp
  rcases hp with h | h | h | h
  · exact ⟨pfx ++ v, Or.inl h⟩
  · exact ⟨pfx ++ v, Or.inr h⟩
  · exact ⟨level ++ v, Or.inr h⟩
  · exact ⟨level ++ v, Or.inl h⟩

/-- C9 witness: the first pattern for (DIST, D, GRAD, 2019) carries the
`_2019` suffix, and the pre-rename leftover directory is reported absent. -/
theorem oracle_matches_only_year_suffixed_witness :
    (∃ stem, "DISTGRAD_2019.csv" = stem ++ "_" ++ toString 2019 ++ ".csv" ∨
      "DISTGRAD_2019.csv" = stem ++ "_" ++ toString 2019 ++ ".dat") ∧
    alreadyPresent ["DISTGRAD.csv"] "DIST" "D" "GRAD" 2019 = false :=
  ⟨oracle_matches_only_year_suffixed.1 "DIST" "D" "GRAD" 2019 "DISTGRAD_2019.csv" (by decide),
   oracle_matches_only_year_suffixed.2.1 2019⟩

theorem varLoop_events_no_convert (env : YearEnv) (pfx level : String) (year : Nat)
    (vars : List String) : Event.convertCall ∉ (varLoop env pfx level year vars).1 := by
  induction vars with
  | nil => simp [varLoop]
  | cons v rest ih =>
    simp only [varLoop]
    split
    · exact ih
    · split
      · simp only [List.mem_cons, not_or]
        exact ⟨by simp, by simp, ih⟩
      · exact ih

/-- C3 counterexample: a year whose page loads and whose directory already
holds `district_type2019.csv` hits the `continue` at source line 334, so
`convert_dat_to_csv` is never invoked for that year although the year was
not skipped at page-load time. -/
theorem convert_skipped_when_secondary_file_present :
    envSecondaryFilePresent.pageNotFound = false ∧
    (processYear envSecondaryFilePresent "D" "DIST" ["GRAD"] 2019 true).snd =
      YearStatus.completed [("GRAD", VarOutcome.downloaded)] ∧
    Event.convertCall ∉ (processYear envSecondaryFilePresent "D" "DIST" ["GRAD"] 2019 true).fst := by
  decide

/-- C3 amended: for a year that passes page load and level selection
without an exception, the legacy conversion runs as the final step exactly
when the year does not take one of the two District-branch `continue`
paths: it is skipped when the level is District, secondary data is
requested, and either the secondary district-type file already exists or
the secondary fetch returns nothing; watcher timeout and all per-variable
outcomes do not affect it. -/
theorem convert_call_characterization (env : YearEnv) (level pfx : String)
    (vars : List String) (year : Nat) (dist_type : Bool)
    (hb : env.browserFails = false) (hp : env.pageNotFound = false)
    (hl : env.levelControlPresent = true) :
    Event.convertCall ∈ (processYear env level pfx vars year dist_type).fst ↔
      ¬ (level = "D" ∧ dist_type = true ∧
         (("district_type" ++ toString year ++ ".csv") ∈ env.listing ∨
          env.secondaryFetchOk = false)) := by
  have hlp := varLoop_events_no_convert env pfx level year vars
  simp only [processYear, hb, hp, hl, Bool.not_true, Bool.false_eq_true, if_false, ite_false]
  set lp := varLoop env pfx level year vars with hlpdef
  set avail := List.filter (fun v => !lp.2.2.contains v) vars with havaildef
  set rn := (if (wait_for_downloads avail year env.listing 200).1 = true
    then List.map Event.renameCall avail else []) with hrndef
  have hrnn : Event.convertCall ∉ rn := by
    rw [hrndef]
    split
    · simp
    · simp
  have hcore : Event.convertCall ∉
      Event.navigate :: Event.levelRadioClick :: lp.1 ++ rn ++ [Event.driverQuit] := by
    intro hmem
    simp only [List.mem_cons, List.mem_append, List.mem_singleton] at hmem
    rcases hmem with ((h | h | h) | h) | (h | h)
    · simp at h
    · simp at h
    · exact hlp h
    · exact hrnn h
    · simp at h
    · simp at h
  by_cases hd : (level == "D" && dist_type) = true
  · simp only [Bool.and_eq_true, beq_iff_eq] at hd
    rw [if_pos (by simp [Bool.and_eq_true, beq_iff_eq, hd.1, hd.2])]
    by_cases hpres : ("district_type" ++ toString year ++ ".csv") ∈ env.listing
    · rw [if_pos hpres]
      exact iff_of_false hcore (not_not_intro ⟨hd.1, hd.2, Or.inl hpres⟩)
    · rw [if_neg hpres]
      cases hso : env.secondaryFetchOk with
      | false =>
        rw [if_pos (show (!false) = true from rfl)]
        refine iff_of_false ?_ (not_not_intro ⟨hd.1, hd.2, Or.inr rfl⟩)
        intro hmem
        rcases List.mem_append.mp hmem with h | h
        · exact hcore h
        · simp at h
      | true =>
        rw [if_neg (show ¬ (!true) = true by simp)]
        refine iff_of_true ?_ ?_
        · simp [List.mem_append]
        · rintro ⟨-, -, hor⟩
          rcases hor with h | h
          · exact hpres h
          · cases h
  · rw [if_neg hd]
    refine iff_of_true (by simp [List.mem_append]) ?_
    rintro ⟨h1, h2, -⟩
    exact hd (by simp [Bool.and_eq_true, beq_iff_eq, h1, h2])

/-- C3 amended witness: with secondary data not requested, the year ends
with a conversion call. -/
theorem convert_call_characterization_witness :
    Event.convertCall ∈ (processYear envPreRenameLeftover "D" "DIST" ["GRAD"] 2019 false).fst :=
  (convert_call_characterization envPreRenameLeftover "D" "DIST" ["GRAD"] 2019 false
      rfl rfl rfl).mpr (by rintro ⟨-, h, -⟩; cases h)

/-- C4: a `NoSuchElementException` raised while locating the level radio
control is matched against the name `WebDriverException`, which is not
among the module's bindings, so Python raises `NameError` in its place and
that `NameError` — not an InvalidRequest-class failure — escapes
`tea_scraper` to its caller, aborting the batch. -/
theorem name_error_escapes_tea_scraper :
    tea_scraper true [2019] ["GRAD"] "D" true (fun _ => envLevelControlMissing) =
      ScraperResult.raised PyExc.nameError
        [(2019, [Event.navigate], YearStatus.raised PyExc.nameError)] ∧
    handlerClassName ∉ moduleBindings ∧
    PyExc.nameError ≠ PyExc.valueError := by
  decide

/-- C7: on the exceptional exit path where the level radio control is
missing, the browser session has been acquired (navigation happened) but
`driver.quit()` never runs: the `except` clause raises `NameError` while
resolving `WebDriverException`, so the handler body containing the quit is
never entered and the session leaks. -/
theorem driver_not_quit_on_handler_name_error :
    (processYear envLevelControlMissing "D" "DIST" ["GRAD"] 2019 true).snd =
      YearStatus.raised PyExc.nameError ∧
    Event.driverQuit ∉ (processYear envLevelControlMissing "D" "DIST" ["GRAD"] 2019 true).fst ∧
    Event.navigate ∈ (processYear envLevelControlMissing "D" "DIST" ["GRAD"] 2019 true).fst := by
  decide

/-- C6 counterexample: with the canonical file for every requested
(year, variable) already on disk, the run still navigates to the year's
page and clicks the level radio — the external-page interaction count is
not zero, although every variable's outcome is already-present. -/
theorem page_interactions_despite_all_present :
    alreadyPresent envAllPresent.listing "DIST" "D" "GRAD" 2021 = true ∧
    tea_scraper true [2021] ["GRAD"] "D" false (fun _ => envAllPresent) =
      ScraperResult.done [(2021, [Event.navigate, Event.levelRadioClick, Event.driverQuit,
        Event.convertCall], YearStatus.completed [("GRAD", VarOutcome.alreadyPresent)])] ∧
    Event.navigate ∈ (tea_scraper true [2021] ["GRAD"] "D" false (fun _ => envAllPresent)).trace ∧
    Event.levelRadioClick ∈
      (tea_scraper true [2021] ["GRAD"] "D" false (fun _ => envAllPresent)).trace := by
  decide

theorem varLoop_all_present (env : YearEnv) (pfx level : String) (year : Nat)
    (vars : List String)
    (h : ∀ v ∈ vars, alreadyPresent env.listing pfx level v year = true) :
    varLoop env pfx level year vars =
      ([], vars.map (fun v => (v, VarOutcome.alreadyPresent)), vars) := by
  induction vars with
  | nil => simp [varLoop]
  | cons v rest ih =>
    have hv := h v (List.mem_cons_self v rest)
    have hr := ih (fun x hx => h x (List.mem_cons_of_mem v hx))
    simp [varLoop, hv, hr]

/-- C6 amended: when every requested variable is already present, a year
that passes page load and level selection reports every variable as
already-present and performs no per-variable page interaction — no variable
radio click and no Continue click — but the page navigation and the level
radio click still take place. -/
theorem all_present_only_page_level_interactions (env : YearEnv) (level pfx : String)
    (vars : List String) (year : Nat) (dist_type : Bool)
    (hb : env.browserFails = false) (hp : env.pageNotFound = false)
    (hl : env.levelControlPresent = true)
    (hall : ∀ v ∈ vars, alreadyPresent env.listing pfx level v year = true) :
    (processYear env level pfx vars year dist_type).snd =
      YearStatus.completed (vars.map (fun v => (v, VarOutcome.alreadyPresent))) ∧
    (∀ v, Event.varRadioClick v ∉ (processYear env level pfx vars year dist_type).fst) ∧
    Event.continueClick ∉ (processYear env level pfx vars year dist_type).fst ∧
    Event.navigate ∈ (processYear env level pfx vars year dist_type).fst ∧
    Event.levelRadioClick ∈ (processYear env level pfx vars year dist_type).fst := by
  have hlp := varLoop_all_present env pfx level year vars hall
  have havail : vars.filter (fun v => !(vars.contains v)) = [] := by
    rw [List.filter_eq_nil_iff]
    intro a ha
    simp [ha]
  simp only [processYear, hb, hp, hl, Bool.not_true, Bool.false_eq_true, if_false, ite_false,
    hlp, havail, List.map_nil, List.nil_append, List.append_nil]
  simp only [ite_self]
  split
  · split
    · exact ⟨rfl, by simp, by simp, by simp, by simp⟩
    · split
      · exact ⟨rfl, by simp, by simp, by simp, by simp⟩
      · exact ⟨rfl, by simp, by simp, by simp, by simp⟩
  · exact ⟨rfl, by simp, by simp, by simp, by simp⟩

/-- C6 amended witness: the concrete all-present run reports the variable
already present, clicks nothing per-variable, and still navigates. -/
theorem all_present_only_page_level_interactions_witness :
    (processYear envAllPresent "D" "DIST" ["GRAD"] 2021 false).snd =
      YearStatus.completed (["GRAD"].map (fun v => (v, VarOutcome.alreadyPresent))) ∧
    (∀ v, Event.varRadioClick v ∉ (processYear envAllPresent "D" "DIST" ["GRAD"] 2021 false).fst) ∧
    Event.continueClick ∉ (processYear envAllPresent "D" "DIST" ["GRAD"] 2021 false).fst ∧
    Event.navigate ∈ (processYear envAllPresent "D" "DIST" ["GRAD"] 2021 false).fst ∧
    Event.levelRadioClick ∈ (processYear envAllPresent "D" "DIST" ["GRAD"] 2021 false).fst :=
  all_present_only_page_level_interactions envAllPresent "D" "DIST" ["GRAD"] 2021 false
    rfl rfl rfl (by decide)

/-- C10: a non-existent directory makes `tea_scraper` return normally
before any year is processed and before any filesystem effect, for every
level including invalid ones — while with an existing directory an
unrecognized level code raises `ValueError` before any year is processed. -/
theorem tea_scraper_request_validation (years : List Nat) (vars : List String)
    (level : String) (dist_type : Bool) (envOf : Nat → YearEnv) :
    tea_scraper false years vars level dist_type envOf = ScraperResult.invalidDir ∧
    (level ∉ validLevels →
      tea_scraper true years vars level dist_type envOf = ScraperResult.invalidLevel) := by
  constructor
  · rfl
  · intro h
    have hc : validLevels.contains level = false := by simpa using h
    simp [tea_scraper, hc]
    exact fun hmem => absurd hmem h

/-- C10 witness: with the unrecognized level code `Q`, a missing directory
returns normally and an existing one raises `ValueError`. -/
theorem tea_scraper_request_validation_witness :
    tea_scraper false [2019] ["GRAD"] "Q" true (fun _ => envLevelControlMissing) =
      ScraperResult.invalidDir ∧
    ("Q" ∉ validLevels ∧
      tea_scraper true [2019] ["GRAD"] "Q" true (fun _ => envLevelControlMissing) =
        ScraperResult.invalidLevel) :=
  ⟨(tea_scraper_request_validation [2019] ["GRAD"] "Q" true (fun _ => envLevelControlMissing)).1,
   by decide,
   (tea_scraper_request_validation [2019] ["GRAD"] "Q" true
     (fun _ => envLevelControlMissing)).2 (by decide)⟩

end TeaScraper
